import Mathlib

/-!
Shallow embedding of the bank-statement import pipeline and the category
rule matcher of the Expense-tracker backend
(`backend/app/api/routes/imports.py`, `backend/app/services/category_rules.py`),
together with theorems settling the frozen claims about them.

Modelling conventions:
* Python strings are `String`; all character-level operations are implemented
  structurally over `List Char` so that every definition evaluates by kernel
  reduction.
* Python `float` amounts are modelled as exact decimal numbers (`Dec`: an
  integer mantissa with a base-10 exponent).  Every amount that the importer
  handles is produced by decimal parsing, so this model is exact.
* `datetime` values are modelled as plain UTC timestamps (`PyDateTime`);
  `_ensure_utc` is the identity in this model.
* Database reads are modelled by passing the ledger (a `List Transaction`)
  explicitly; writes return the new ledger.
* The `re` module primitives used by the PDF line scanner and the `regex`
  rule match type are abstracted as explicit function parameters, since the
  claims under study quantify over their behaviour rather than depend on a
  particular regular-expression engine.
-/

namespace ExpenseTracker

/-! ### Python string primitives -/

/-- One collapsing pass of `re.sub(r"\s+", " ", value)`: every maximal run of
whitespace becomes a single space.  The flag records whether the previous
character was whitespace. -/
def collapseWsGo : Bool → List Char → List Char
  | _, [] => []
  | prevWs, c :: rest =>
    if c.isWhitespace then
      (if prevWs then [] else [' ']) ++ collapseWsGo true rest
    else c :: collapseWsGo false rest

/-- Python `str.strip()` on a character list: drop leading and trailing
whitespace. -/
def pyStrip (cs : List Char) : List Char :=
  ((cs.dropWhile Char.isWhitespace).reverse.dropWhile Char.isWhitespace).reverse

/-- `_normalize_space`: `re.sub(r"\s+", " ", value).strip()`. -/
def _normalize_space (s : String) : String :=
  String.mk (pyStrip (collapseWsGo false s.data))

/-- Python `str.lower()` (the texts handled here are ASCII). -/
def pyLower (s : String) : String :=
  String.mk (s.data.map Char.toLower)

/-- Python `sub in s` substring containment test. -/
def containsSub (hay sub : List Char) : Bool :=
  hay.tails.any (fun t => sub.isPrefixOf t)

/-- Python `str.split(sep)` for a single-character separator (used for
`cleaned.split(",")`): empty fields are kept. -/
def splitOnCharGo (sep : Char) : List Char → List Char → List (List Char)
  | [], acc => [acc.reverse]
  | c :: rest, acc =>
    if c = sep then acc.reverse :: splitOnCharGo sep rest []
    else splitOnCharGo sep rest (c :: acc)

/-- Python `str.split(sep)` for a single-character separator. -/
def splitOnChar (sep : Char) (cs : List Char) : List (List Char) :=
  splitOnCharGo sep cs []

/-- Python `str.rfind(c)`: index of the last occurrence, `-1` when absent. -/
def rfindChar (cs : List Char) (c : Char) : Int :=
  match (cs.reverse.findIdx? (· = c)) with
  | none => -1
  | some i => (cs.length : Int) - 1 - (i : Int)

/-- Splitting on a (non-empty) substring, fuelled by the input length: the
building block of Python `str.replace`.  Matches are consumed left to right
and do not overlap, as in CPython. -/
def splitSubGo (pat : List Char) : Nat → List Char → List Char → List (List Char)
  | _, acc, [] => [acc.reverse]
  | 0, acc, cs => [acc.reverse ++ cs]
  | fuel + 1, acc, c :: cs =>
    if pat ≠ [] ∧ pat.isPrefixOf (c :: cs) then
      acc.reverse :: splitSubGo pat fuel [] (List.drop pat.length (c :: cs))
    else splitSubGo pat fuel (c :: acc) cs

/-- Python `s.replace(pat, repl)` for a non-empty pattern. -/
def pyReplace (s pat repl : String) : String :=
  String.mk (List.intercalate repl.data (splitSubGo pat.data (s.data.length + 1) [] s.data))

/-- Python `" ".join(values)` style joining. -/
def pyJoin (sep : String) (xs : List String) : String :=
  String.mk (List.intercalate sep.data (xs.map (·.data)))

/-- Digit-list value; the empty list counts as zero (so `float("1.")` and
`float(".5")` behave as in Python). -/
def digitsToNat (cs : List Char) : Nat :=
  cs.foldl (fun acc c => acc * 10 + (c.toNat - '0'.toNat)) 0

/-! ### Exact decimal model of Python floats -/

/-- Exact decimal number: the value is `num / 10 ^ exp`.  This models the
Python `float` amounts flowing through the import pipeline, all of which are
produced by parsing decimal strings. -/
structure Dec where
  num : Int
  exp : Nat
deriving DecidableEq

/-- Rational value of a decimal. -/
def Dec.toRat (a : Dec) : ℚ := (a.num : ℚ) / (10 : ℚ) ^ a.exp

/-- Python `amount == 0`. -/
def Dec.isZero (a : Dec) : Bool := a.num = 0

/-- Python `amount > 0`. -/
def Dec.isPos (a : Dec) : Bool := 0 < a.num

/-- Python `-amount`. -/
def Dec.neg (a : Dec) : Dec := ⟨-a.num, a.exp⟩

/-- Python `abs(amount)`. -/
def Dec.abs (a : Dec) : Dec := ⟨|a.num|, a.exp⟩

/-- Python `credit_abs - debit_abs` (exact on decimals). -/
def Dec.sub (a b : Dec) : Dec :=
  ⟨a.num * (10 : Int) ^ (max a.exp b.exp - a.exp) - b.num * (10 : Int) ^ (max a.exp b.exp - b.exp),
   max a.exp b.exp⟩

/-! ### Amount parsing (`_parse_amount_value`) -/

/-- Python `float(cleaned)` restricted to the alphabet left over by the
cleaning step of `_parse_amount_value` (digits, `.`, `,`, `-`): an optional
sign followed by digits with at most one decimal point.  Any comma, interior
sign or malformed shape raises `ValueError`, modelled as `none`. -/
def pyFloatOfCleaned (cs : List Char) : Option Dec :=
  let signed : Bool × List Char :=
    match cs with
    | '-' :: t => (true, t)
    | '+' :: t => (false, t)
    | t => (false, t)
  let neg := signed.1
  let rest := signed.2
  if rest = [] then none
  else if rest.any (fun c => !(c.isDigit || c = '.')) then none
  else
    match splitOnChar '.' rest with
    | [ip] =>
      some ⟨if neg then -(digitsToNat ip : Int) else (digitsToNat ip : Int), 0⟩
    | [ip, fp] =>
      if ip = [] ∧ fp = [] then none
      else
        let n : Nat := digitsToNat ip * 10 ^ fp.length + digitsToNat fp
        some ⟨if neg then -(n : Int) else (n : Int), fp.length⟩
    | _ => none

/-- `_parse_amount_value` on a string input (the `raw is None` and blank cases
are handled by `_parse_amount_opt`). -/
def _parse_amount_value (raw : String) : Option Dec :=
  let value := pyStrip raw.data
  if value = [] then none
  else
    let negative := (value.contains '(' && value.contains ')') || value.getLast? = some '-'
    let cleaned := value.filter (fun c => c.isDigit || c = ',' || c = '.' || c = '-')
    if cleaned = [] then none
    else
      let cleaned :=
        if 0 < cleaned.count ',' ∧ 0 < cleaned.count '.' then
          if rfindChar cleaned '.' < rfindChar cleaned ',' then
            (cleaned.filter (· ≠ '.')).map (fun c => if c = ',' then '.' else c)
          else cleaned.filter (· ≠ ',')
        else if 0 < cleaned.count ',' then
          let parts := splitOnChar ',' cleaned
          if parts.length = 2 ∧ ((parts.getD 1 []).length = 1 ∨ (parts.getD 1 []).length = 2) then
            List.intercalate ['.'] parts
          else parts.flatten
        else if 1 < cleaned.count '.' then cleaned.filter (· ≠ '.')
        else cleaned
      match pyFloatOfCleaned cleaned with
      | none => none
      | some amount =>
        some (if negative && amount.isPos then amount.neg else amount)

/-- `_parse_amount_value(raw)` where `raw` may be `None` (absent cell). -/
def _parse_amount_opt (raw : Option String) : Option Dec :=
  match raw with
  | none => none
  | some s => _parse_amount_value s

/-! ### Currency normalization -/

/-- `CURRENCY_SYMBOLS` in insertion order. -/
def CURRENCY_SYMBOLS : List (String × String) :=
  [("€", "EUR"), ("$", "USD"), ("£", "GBP")]

/-- `CURRENCY_CODES`. -/
def CURRENCY_CODES : List String := ["EUR", "USD", "GBP", "CHF"]

/-- `re.sub(r"[^A-Za-z]", "", value).upper()`. -/
def lettersUpper (s : String) : List Char :=
  (s.data.filter Char.isAlpha).map Char.toUpper

/-- `_parse_currency_value`. -/
def _parse_currency_value (raw : Option String) (default_currency : String) : String :=
  match raw with
  | none => default_currency
  | some r =>
    let value := String.mk (pyStrip r.data)
    if value = "" then default_currency
    else
      match CURRENCY_SYMBOLS.lookup value with
      | some code => code
      | none =>
        let letters := lettersUpper value
        if 3 ≤ letters.length then String.mk (letters.take 3)
        else default_currency

/-- `_extract_currency_from_text`. -/
def _extract_currency_from_text (text : String) (default_currency : String) : String :=
  match CURRENCY_SYMBOLS.find? (fun p => containsSub text.data p.1.data) with
  | some p => p.2
  | none =>
    let upper_text := text.data.map Char.toUpper
    match CURRENCY_CODES.find? (fun code => containsSub upper_text code.data) with
    | some code => code
    | none => default_currency

/-! ### Dates (`_parse_date_value`) -/

/-- Python `datetime` already normalized to UTC (`_ensure_utc` is the identity
in this model; every datetime built by the importer carries `tzinfo=UTC`). -/
structure PyDateTime where
  year : Nat
  month : Nat
  day : Nat
  hour : Nat
  minute : Nat
  second : Nat
deriving DecidableEq

/-- Gregorian leap year, as `datetime` uses. -/
def isLeapYear (y : Nat) : Bool :=
  (y % 4 = 0 && y % 100 ≠ 0) || y % 400 = 0

/-- Length of a month. -/
def daysInMonth (y m : Nat) : Nat :=
  if m = 2 then (if isLeapYear y then 29 else 28)
  else if m = 4 ∨ m = 6 ∨ m = 9 ∨ m = 11 then 30
  else 31

/-- Calendar validity as `datetime(..)` enforces it. -/
def validYMD (y m d : Nat) : Bool :=
  1 ≤ y && y ≤ 9999 && 1 ≤ m && m ≤ 12 && 1 ≤ d && d ≤ daysInMonth y m

/-- All-digit field of bounded width, as the `strptime` directives `%Y`, `%m`,
`%d`, `%H`, `%M`, `%S` accept. -/
def digitField (lo hi : Nat) (cs : List Char) : Option Nat :=
  if lo ≤ cs.length ∧ cs.length ≤ hi ∧ cs.all Char.isDigit then some (digitsToNat cs)
  else none

/-- Parse `HH:MM` or `HH:MM:SS`. -/
def parseTimeHMS (cs : List Char) : Option (Nat × Nat × Nat) :=
  match splitOnChar ':' cs with
  | [h, m] =>
    match digitField 2 2 h, digitField 2 2 m with
    | some hv, some mv => if hv ≤ 23 ∧ mv ≤ 59 then some (hv, mv, 0) else none
    | _, _ => none
  | [h, m, s] =>
    match digitField 2 2 h, digitField 2 2 m, digitField 2 2 s with
    | some hv, some mv, some sv =>
      if hv ≤ 23 ∧ mv ≤ 59 ∧ sv ≤ 59 then some (hv, mv, sv) else none
    | _, _, _ => none
  | _ => none

/-- Model of `datetime.fromisoformat` restricted to the shapes that reach it
here: `YYYY-MM-DD`, optionally followed by `T` or a space and `HH:MM[:SS]`,
optionally followed by the UTC offset `+00:00` (the `Z` suffix is rewritten to
`+00:00` by the caller before this runs).  Fractional seconds and non-zero
offsets are outside the model and yield `none`. -/
def parse_isoformat_model (cs : List Char) : Option PyDateTime :=
  let datePart := cs.take 10
  let rest := cs.drop 10
  match splitOnChar '-' datePart with
  | [y, m, d] =>
    match digitField 4 4 y, digitField 2 2 m, digitField 2 2 d with
    | some yv, some mv, some dv =>
      if validYMD yv mv dv then
        match rest with
        | [] => some ⟨yv, mv, dv, 0, 0, 0⟩
        | sep :: timeCs =>
          if sep = 'T' ∨ sep = ' ' then
            let hasUtcOffset := 6 < timeCs.length ∧ timeCs.drop (timeCs.length - 6) = "+00:00".data
            let timeOnly := if hasUtcOffset then timeCs.take (timeCs.length - 6) else timeCs
            if ¬hasUtcOffset ∧ (timeCs.contains '+' ∨ timeCs.contains '-') then none
            else
              match parseTimeHMS timeOnly with
              | some (h, mi, s) => some ⟨yv, mv, dv, h, mi, s⟩
              | none => none
          else none
      else none
    | _, _, _ => none
  | _ => none

/-- One `datetime.strptime(value, fmt)` attempt for the date-only formats of
`DATE_FORMATS`: three digit fields joined by `sep`, in the given order
(`ymd` true means year first, else the first two fields are day/month or
month/day as `dayFirst` says). -/
def parse_strptime_date (sep : Char) (ymd : Bool) (dayFirst : Bool) (cs : List Char) :
    Option PyDateTime :=
  match splitOnChar sep cs with
  | [a, b, c] =>
    let fields :=
      if ymd then
        match digitField 1 4 a, digitField 1 2 b, digitField 1 2 c with
        | some y, some m, some d => some (y, m, d)
        | _, _, _ => none
      else if dayFirst then
        match digitField 1 2 a, digitField 1 2 b, digitField 1 4 c with
        | some d, some m, some y => some (y, m, d)
        | _, _, _ => none
      else
        match digitField 1 2 a, digitField 1 2 b, digitField 1 4 c with
        | some m, some d, some y => some (y, m, d)
        | _, _, _ => none
    match fields with
    | some (y, m, d) => if validYMD y m d then some ⟨y, m, d, 0, 0, 0⟩ else none
    | none => none
  | _ => none

/-- `_parse_date_value`: ISO 8601 first (after rewriting `Z` to `+00:00`),
then the `DATE_FORMATS` list `%Y-%m-%d`, `%Y/%m/%d`, `%d.%m.%Y`, `%d/%m/%Y`,
`%m/%d/%Y` in order. -/
def _parse_date_value (raw : Option String) : Option PyDateTime :=
  match raw with
  | none => none
  | some r =>
    let value := pyStrip r.data
    if value = [] then none
    else
      let isoInput := value.flatMap (fun c => if c = 'Z' then "+00:00".data else [c])
      match parse_isoformat_model isoInput with
      | some dt => some dt
      | none =>
        match parse_strptime_date '-' true true value with
        | some dt => some dt
        | none =>
          match parse_strptime_date '/' true true value with
          | some dt => some dt
          | none =>
            match parse_strptime_date '.' false true value with
            | some dt => some dt
            | none =>
              match parse_strptime_date '/' false true value with
              | some dt => some dt
              | none => parse_strptime_date '/' false false value

/-! ### Candidate rows and ledger entities -/

/-- Candidate import row (`TransactionImportRow` / the dicts built by
`_base_row`). -/
structure Row where
  line_number : Nat
  category_id : Option Nat
  description : String
  note : Option String
  currency : String
  amount : Option Dec
  occurred_at : Option PyDateTime
  external_id : Option String
  is_duplicate : Bool
  duplicate_reason : Option String
  error : Option String
  selected : Bool
deriving DecidableEq

/-- `_base_row`. -/
def _base_row (line_number : Nat) : Row :=
  { line_number := line_number
    category_id := none
    description := ""
    note := none
    currency := ""
    amount := none
    occurred_at := none
    external_id := none
    is_duplicate := false
    duplicate_reason := none
    error := none
    selected := true }

/-- Ledger transaction (the persisted `Transaction` model; columns not read
or written by the importer are elided).  `id` is assigned by the database and
is not meaningful inside this model. -/
structure Transaction where
  id : Nat
  user_id : Nat
  account_id : Nat
  category_id : Option Nat
  external_id : Option String
  description : String
  note : Option String
  currency : String
  amount : Dec
  occurred_at : PyDateTime
  is_manual : Bool
deriving DecidableEq

/-- Account (columns not read by the importer are elided). -/
structure Account where
  id : Nat
  user_id : Nat
  currency : String
deriving DecidableEq

/-! ### Fingerprinting (`_transaction_fingerprint`) -/

/-- Zero-padded two-digit rendering. -/
def pad2 (n : Nat) : String :=
  if n < 10 then "0" ++ toString n else toString n

/-- Zero-padded four-digit rendering (`date.isoformat` year field). -/
def pad4 (n : Nat) : String :=
  if n < 10 then "000" ++ toString n
  else if n < 100 then "00" ++ toString n
  else if n < 1000 then "0" ++ toString n
  else toString n

/-- `occurred_at.date().isoformat()`. -/
def dateIso (d : PyDateTime) : String :=
  pad4 d.year ++ "-" ++ pad2 d.month ++ "-" ++ pad2 d.day

/-- Value of the amount in cents, rounded to nearest with ties to even —
the rounding `f"{amount:.2f}"` performs.  (For a negative amount rounding to
zero cents Python would render `-0.00`; the model renders `0.00`.  No claim
depends on that corner.) -/
def roundCents (a : Dec) : Int :=
  if a.exp ≤ 2 then a.num * (10 : Int) ^ (2 - a.exp)
  else
    let p : Int := (10 : Int) ^ (a.exp - 2)
    let q := Int.ediv a.num p
    let r := a.num - q * p
    if 2 * r < p then q
    else if p < 2 * r then q + 1
    else if q % 2 = 0 then q else q + 1

/-- `f"{amount:.2f}"`. -/
def format2f (a : Dec) : String :=
  let n := roundCents a
  (if n < 0 then "-" else "") ++ toString (n.natAbs / 100) ++ "." ++ pad2 (n.natAbs % 100)

/-- `_transaction_fingerprint`.  The SHA-256 digest is modelled by the
(injective) payload string itself: the code only ever compares fingerprints
for equality, and payload equality coincides with digest equality short of a
hash collision. -/
def _transaction_fingerprint (account_id : Nat) (occurred_at : PyDateTime) (amount : Dec)
    (description : String) : String :=
  toString account_id ++ "|" ++ dateIso occurred_at ++ "|" ++ format2f amount ++ "|" ++
    pyLower (_normalize_space description)

/-! ### The delimited-text path (`_parse_csv_rows`, per data row)

Header sniffing and column resolution (`csv.Sniffer`, `DictReader`,
`_resolve_header`) only determine which cell of the raw line feeds which
field; they are modelled by presenting each data row as an already-resolved
record of optional cell values.  A `none` cell covers both a missing column
and a `None` cell from a short line. -/

/-- The cells of one CSV data row after header resolution.  `amountCol`
records whether a dedicated amount column was resolved (`amount_col` being
non-`None`), which decides between the amount branch and the debit/credit
branch. -/
structure CsvRowCells where
  description : Option String
  note : Option String
  date : Option String
  amountCol : Bool
  amount : Option String
  debit : Option String
  credit : Option String
  currency : Option String
  external_id : Option String
deriving DecidableEq

/-- Python truthiness `s or None` / `... or None` on a normalized string. -/
def strOrNone (s : String) : Option String :=
  if s = "" then none else some s

/-- The per-row body of `_parse_csv_rows` (lines 249–301 of `imports.py`):
field extraction, validation, and error accumulation for one data row. -/
def _parse_csv_row (default_currency : String) (line_number : Nat) (cells : CsvRowCells) : Row :=
  let description0 := _normalize_space (cells.description.getD "")
  let note := _normalize_space (cells.note.getD "")
  let description := if description0 = "" ∧ note ≠ "" then note else description0
  let errors0 : List String := if description = "" then ["Description is required"] else []
  let occurred_at := _parse_date_value cells.date
  let errors1 := errors0 ++ (if occurred_at = none then ["Unable to parse date"] else [])
  let amount : Option Dec :=
    if cells.amountCol then _parse_amount_opt cells.amount
    else
      let debit_abs := (_parse_amount_opt cells.debit).map Dec.abs
      let credit_abs := (_parse_amount_opt cells.credit).map Dec.abs
      match debit_abs, credit_abs with
      | some d, some c => some (Dec.sub c d)
      | some d, none => some (Dec.neg d)
      | none, some c => some c
      | none, none => none
  let errors2 := errors1 ++
    (if amount = none ∨ (amount.map Dec.isZero).getD false then ["Unable to parse non-zero amount"]
     else [])
  let currency := _parse_currency_value cells.currency default_currency
  let errors3 := errors2 ++
    (if currency.length ≠ 3 then ["Currency must be a 3-letter code"] else [])
  let external_id := strOrNone (_normalize_space (cells.external_id.getD ""))
  { _base_row line_number with
      description := description
      note := strOrNone note
      currency := currency
      amount := amount
      occurred_at := occurred_at
      external_id := external_id
      error := if errors3 = [] then none else some (pyJoin "; " errors3)
      selected := errors3 = [] }

/-- The rows list built by `_parse_csv_rows`: data rows enumerated with
1-based line numbers starting at 2 (after the header). -/
def _parse_csv_rows (default_currency : String) (cellRows : List CsvRowCells) : List Row :=
  cellRows.enum.map (fun p => _parse_csv_row default_currency (p.1 + 2) p.2)

/-! ### The page-text path (`_parse_pdf_rows`, per line)

`DATE_REGEX.search` and the last `AMOUNT_REGEX` match are abstracted as the
function parameters `dateSearch` (first match, or `none`) and `amountFindall`
(all matches in order, so the loop keeps the last one): the claims about this
path hold for every behaviour of the regular-expression engine. -/

/-- The per-line body of `_parse_pdf_rows` (lines 336–360 of `imports.py`).
Returns `none` exactly when the line is skipped (`continue`). -/
def _parse_pdf_line (dateSearch : String → Option String) (amountFindall : String → List String)
    (default_currency : String) (line_number : Nat) (line : String) : Option Row :=
  match dateSearch line, (amountFindall line).getLast? with
  | some date_text, some amount_text =>
    match _parse_date_value (some date_text), _parse_amount_value amount_text with
    | some occurred_at, some amount =>
      if amount.isZero then none
      else
        let description0 := _normalize_space (pyReplace (pyReplace line date_text " ") amount_text " ")
        let description := if description0 = "" then "Statement transaction" else description0
        some { _base_row line_number with
                 description := description
                 currency := _extract_currency_from_text line default_currency
                 amount := some amount
                 occurred_at := some occurred_at }
    | _, _ => none
  | _, _ => none

/-- The rows list built by `_parse_pdf_rows` from the non-blank normalized
lines (each paired with its synthetic line number). -/
def _parse_pdf_rows (dateSearch : String → Option String) (amountFindall : String → List String)
    (default_currency : String) (lines : List (Nat × String)) : List Row :=
  lines.filterMap (fun p => _parse_pdf_line dateSearch amountFindall default_currency p.1 p.2)

/-! ### Duplicate annotation (`_annotate_duplicate_rows`) -/

/-- The `valid_rows` filter (lines 379–383): no error, has a date, has an
amount. -/
def validRow (r : Row) : Bool :=
  r.error = none && r.occurred_at.isSome && r.amount.isSome

/-- Python truthiness of `row.get("external_id")`. -/
def extTruthy (r : Row) : Bool :=
  match r.external_id with
  | some e => e ≠ ""
  | none => false

/-- The external id carried by a row (meaningful when `extTruthy`). -/
def extVal (r : Row) : String := r.external_id.getD ""

/-- The batch external ids (`external_ids` list): ids of valid rows, kept
only when truthy. -/
def batchExternalIds (rows : List Row) : List String :=
  (rows.filter validRow).filterMap
    (fun r => if extTruthy r then some (extVal r) else none)

/-- `existing_external_ids`: ledger external ids for this user and account
that occur among the batch ids (the `in_` restriction), dropping `None` and
empty values. -/
def existing_external_ids (ledger : List Transaction) (user_id account_id : Nat)
    (rows : List Row) : List String :=
  ledger.filterMap (fun t =>
    if t.user_id = user_id ∧ t.account_id = account_id then
      match t.external_id with
      | some e => if e ≠ "" ∧ e ∈ batchExternalIds rows then some e else none
      | none => none
    else none)

/-- `existing_fingerprints`: fingerprints of every ledger transaction of this
user and account. -/
def existing_fingerprints (ledger : List Transaction) (user_id account_id : Nat) : List String :=
  ledger.filterMap (fun t =>
    if t.user_id = user_id ∧ t.account_id = account_id then
      some (_transaction_fingerprint account_id t.occurred_at t.amount t.description)
    else none)

/-- Fingerprint of a candidate row (defined whenever the row has a date and
an amount; the defaults are never reached on such rows). -/
def rowFingerprint (account_id : Nat) (r : Row) : String :=
  _transaction_fingerprint account_id (r.occurred_at.getD ⟨1, 1, 1, 0, 0, 0⟩)
    (r.amount.getD ⟨0, 0⟩) r.description

/-- One iteration of the `for row in rows` loop of `_annotate_duplicate_rows`
(lines 421–472): the updated row together with the updated
`seen_external_ids` and `seen_fingerprints`. -/
def annotateRowStep (mutate_selection : Bool) (account_id : Nat)
    (existingExt existingFp : List String) (seenExt seenFp : List String) (row : Row) :
    Row × List String × List String :=
  if row.error ≠ none then
    (if mutate_selection then { row with selected := false } else row, seenExt, seenFp)
  else if row.occurred_at = none ∨ row.amount = none ∨ row.description = "" then
    ({ row with error := some "Incomplete row data"
                selected := if mutate_selection then false else row.selected },
     seenExt, seenFp)
  else
    let dup := fun (reason : String) =>
      ({ row with is_duplicate := true
                  duplicate_reason := some reason
                  selected := if mutate_selection then false else row.selected },
       seenExt, seenFp)
    if extTruthy row && seenExt.contains (extVal row) then
      dup "Duplicate in uploaded file (external id)"
    else if extTruthy row && existingExt.contains (extVal row) then
      dup "Already exists (external id)"
    else
      let fingerprint := rowFingerprint account_id row
      if seenFp.contains fingerprint then dup "Duplicate in uploaded file"
      else if existingFp.contains fingerprint then dup "Already exists"
      else
        (row,
         if extTruthy row then extVal row :: seenExt else seenExt,
         fingerprint :: seenFp)

/-- The full loop of `_annotate_duplicate_rows`. -/
def annotateGo (mutate_selection : Bool) (account_id : Nat)
    (existingExt existingFp : List String) : List String → List String → List Row → List Row
  | _, _, [] => []
  | seenExt, seenFp, row :: rest =>
    let step := annotateRowStep mutate_selection account_id existingExt existingFp seenExt seenFp row
    step.1 :: annotateGo mutate_selection account_id existingExt existingFp step.2.1 step.2.2 rest

/-- `_annotate_duplicate_rows`: early return when no row is valid, otherwise
the loop run against the ledger-derived sets with empty seen-sets. -/
def _annotate_duplicate_rows (ledger : List Transaction) (user_id account_id : Nat)
    (rows : List Row) (mutate_selection : Bool) : List Row :=
  if rows.filter validRow = [] then rows
  else
    annotateGo mutate_selection account_id
      (existing_external_ids ledger user_id account_id rows)
      (existing_fingerprints ledger user_id account_id)
      [] [] rows

/-! ### Claim-side duplicate policy (for claim C2)

`spec_dup_flag` renders the claim's wording: the duplicate flag of a
structurally valid row is decided by the first matching check among
(a) external id seen earlier in the batch, (b) external id already in the
ledger, (c) fingerprint seen earlier in the batch, (d) fingerprint already
in the ledger; external-id checks apply only to rows carrying a non-empty
external id.  The validity notion is a parameter so that the claim's own
notion (no error, amount, date) and the code's notion (which additionally
requires a non-empty description) can both be expressed. -/

/-- Claim C2's own validity notion: "no error, with amount and date". -/
def claimValid (r : Row) : Bool :=
  r.error = none && r.occurred_at.isSome && r.amount.isSome

/-- The validity notion the code actually applies before the duplicate
checks: additionally the description must be non-empty. -/
def amendedValid (r : Row) : Bool :=
  claimValid r && r.description ≠ ""

/-- First-matching-check duplicate decision for a single valid row, given the
seen-sets. -/
def spec_dup_flag (account_id : Nat) (existingExt existingFp : List String)
    (seenExt seenFp : List String) (row : Row) : Bool :=
  if extTruthy row && seenExt.contains (extVal row) then true
  else if extTruthy row && existingExt.contains (extVal row) then true
  else if seenFp.contains (rowFingerprint account_id row) then true
  else if existingFp.contains (rowFingerprint account_id row) then true
  else false

/-- Seen-set evolution as the claim describes it: a valid row that is not
flagged contributes its external id (when it carries one) and its
fingerprint. -/
def spec_dup_flags (validPred : Row → Bool) (account_id : Nat)
    (existingExt existingFp : List String) :
    List String → List String → List Row → List Bool
  | _, _, [] => []
  | seenExt, seenFp, row :: rest =>
    if validPred row then
      let flag := spec_dup_flag account_id existingExt existingFp seenExt seenFp row
      flag ::
        spec_dup_flags validPred account_id existingExt existingFp
          (if !flag && extTruthy row then extVal row :: seenExt else seenExt)
          (if !flag then rowFingerprint account_id row :: seenFp else seenFp)
          rest
    else
      false :: spec_dup_flags validPred account_id existingExt existingFp seenExt seenFp rest

/-! ### Category rule matcher (`app/services/category_rules.py`) -/

/-- Persisted `CategoryRule` (the `match_type` and `applies_to_kind` columns
are stored as strings, compared literally by the matcher). -/
structure CategoryRule where
  id : Nat
  user_id : Nat
  category_id : Nat
  pattern : String
  match_type : String
  applies_to_kind : String
  priority : Int
  case_sensitive : Bool
  is_active : Bool
deriving DecidableEq

/-- `transaction_kind_from_amount`. -/
def transaction_kind_from_amount (amount : Dec) : String :=
  if amount.num < 0 then "expense" else "income"

/-- `_rule_matches_text`.  `regexSearch pat text ignoreCase` abstracts
`re.search(pat, text, flags) is not None` (with the defensive
`except re.error: return False` folded into whatever Boolean the engine
returns). -/
def _rule_matches_text (regexSearch : String → String → Bool → Bool)
    (rule : CategoryRule) (text : String) : Bool :=
  if text = "" then false
  else
    let pattern := if rule.case_sensitive then rule.pattern else pyLower rule.pattern
    let target := if rule.case_sensitive then text else pyLower text
    if rule.match_type = "contains" then containsSub target.data pattern.data
    else if rule.match_type = "starts_with" then pattern.data.isPrefixOf target.data
    else if rule.match_type = "equals" then target = pattern
    else if rule.match_type = "regex" then regexSearch rule.pattern text (!rule.case_sensitive)
    else false

/-- `_candidate_texts`. -/
def _candidate_texts (description : String) (note : Option String) : List String :=
  let values : List String :=
    match strOrNone (_normalize_space description) with
    | some nd => [nd]
    | none => []
  let values :=
    match note with
    | some nt =>
      if nt = "" then values
      else
        match strOrNone (_normalize_space nt) with
        | some nn => values ++ [nn]
        | none => values
    | none => values
  if values = [] then values else values ++ [pyJoin " " values]

/-- The SQL ordering `ORDER BY priority ASC, id ASC`. -/
def ruleLe (r1 r2 : CategoryRule) : Bool :=
  r1.priority < r2.priority || (r1.priority = r2.priority && r1.id ≤ r2.id)

/-- The active-rule snapshot the matcher iterates: the user's active rules
sorted by ascending priority, ties broken by ascending id.  (`id` is a
primary key, so the ordering key is total and any sorting algorithm yields
the SQL result; insertion sort is used so that the definition evaluates by
kernel reduction.) -/
def sortedActiveRules (rules : List CategoryRule) (user_id : Nat) : List CategoryRule :=
  List.insertionSort (fun a b => ruleLe a b = true)
    (rules.filter (fun r => r.user_id = user_id && r.is_active))

/-- The inner `for text in texts` loop. -/
def matchTexts (regexSearch : String → String → Bool → Bool) (rule : CategoryRule) :
    List String → Option Nat
  | [] => none
  | t :: ts =>
    if _rule_matches_text regexSearch rule t then some rule.category_id
    else matchTexts regexSearch rule ts

/-- The outer `for rule in rules` loop. -/
def scanRules (regexSearch : String → String → Bool → Bool) (txn_kind : String)
    (texts : List String) : List CategoryRule → Option Nat
  | [] => none
  | r :: rs =>
    if r.applies_to_kind ≠ "all" ∧ r.applies_to_kind ≠ txn_kind then
      scanRules regexSearch txn_kind texts rs
    else
      match matchTexts regexSearch r texts with
      | some c => some c
      | none => scanRules regexSearch txn_kind texts rs

/-- `find_matching_category_id`.  The database is the full rule list; the
query's filtering and ordering are applied by `sortedActiveRules`. -/
def find_matching_category_id (regexSearch : String → String → Bool → Bool)
    (rules : List CategoryRule) (user_id : Nat) (description : String) (note : Option String)
    (amount : Dec) : Option Nat :=
  let texts := _candidate_texts description note
  if texts = [] then none
  else
    scanRules regexSearch (transaction_kind_from_amount amount) texts
      (sortedActiveRules rules user_id)

/-- Structural match of one rule, as claim C5 words it: the rule's kind
gate passes and some candidate text matches. -/
def rule_struct_matches (regexSearch : String → String → Bool → Bool) (txn_kind : String)
    (texts : List String) (r : CategoryRule) : Bool :=
  (r.applies_to_kind = "all" || r.applies_to_kind = txn_kind) &&
    texts.any (_rule_matches_text regexSearch r)

/-! ### Byte decoding (`_decode_bytes`) -/

/-- Continuation byte test (`0x80 ≤ b ≤ 0xBF`). -/
def isCont (b : Fin 256) : Bool := 0x80 ≤ b.val && b.val ≤ 0xBF

/-- Strict UTF-8 decoding as `bytes.decode("utf-8")` performs it: rejects
truncated sequences, stray continuation bytes, overlong encodings,
surrogates, and code points above `U+10FFFF`. -/
def utf8Decode : List (Fin 256) → Option (List Char)
  | [] => some []
  | b :: rest =>
    let n := b.val
    if n < 0x80 then (utf8Decode rest).map (Char.ofNat n :: ·)
    else if 0xC2 ≤ n ∧ n ≤ 0xDF then
      match rest with
      | c :: rest2 =>
        if isCont c then (utf8Decode rest2).map (Char.ofNat ((n - 0xC0) * 64 + (c.val - 0x80)) :: ·)
        else none
      | [] => none
    else if 0xE0 ≤ n ∧ n ≤ 0xEF then
      match rest with
      | c1 :: c2 :: rest2 =>
        let lo1 := if n = 0xE0 then 0xA0 else 0x80
        let hi1 := if n = 0xED then 0x9F else 0xBF
        if lo1 ≤ c1.val ∧ c1.val ≤ hi1 ∧ isCont c2 then
          (utf8Decode rest2).map
            (Char.ofNat ((n - 0xE0) * 4096 + (c1.val - 0x80) * 64 + (c2.val - 0x80)) :: ·)
        else none
      | _ => none
    else if 0xF0 ≤ n ∧ n ≤ 0xF4 then
      match rest with
      | c1 :: c2 :: c3 :: rest2 =>
        let lo1 := if n = 0xF0 then 0x90 else 0x80
        let hi1 := if n = 0xF4 then 0x8F else 0xBF
        if lo1 ≤ c1.val ∧ c1.val ≤ hi1 ∧ isCont c2 ∧ isCont c3 then
          (utf8Decode rest2).map
            (Char.ofNat ((n - 0xF0) * 262144 + (c1.val - 0x80) * 4096 +
              (c2.val - 0x80) * 64 + (c3.val - 0x80)) :: ·)
        else none
      | _ => none
    else none

/-- `bytes.decode("utf-8-sig")`: strip a UTF-8 byte-order mark if present,
then decode as UTF-8. -/
def utf8SigDecode (raw : List (Fin 256)) : Option (List Char) :=
  match raw with
  | b0 :: b1 :: b2 :: rest =>
    if b0.val = 0xEF ∧ b1.val = 0xBB ∧ b2.val = 0xBF then utf8Decode rest
    else utf8Decode raw
  | _ => utf8Decode raw

/-- `bytes.decode("latin-1")`: each byte maps to the code point of the same
value; the codec accepts every byte sequence. -/
def latin1Decode (raw : List (Fin 256)) : Option (List Char) :=
  some (raw.map (fun b => Char.ofNat b.val))

/-- `_decode_bytes`: try `utf-8-sig`, `utf-8`, `latin-1` in order; the final
`raise HTTPException` is the fall-through when every codec fails. -/
def _decode_bytes (raw : List (Fin 256)) : Except String String :=
  match utf8SigDecode raw with
  | some cs => .ok (String.mk cs)
  | none =>
    match utf8Decode raw with
    | some cs => .ok (String.mk cs)
    | none =>
      match latin1Decode raw with
      | some cs => .ok (String.mk cs)
      | none => .error "Unable to decode uploaded file. Please use UTF-8/Latin-1 encoded CSV."

/-! ### Preview and commit orchestration -/

/-- `_load_account_or_404`: `None` models the 404. -/
def _load_account_or_404 (accounts : List Account) (user_id account_id : Nat) : Option Account :=
  accounts.find? (fun acc => acc.id = account_id && acc.user_id = user_id)

/-- `TransactionImportPreviewResponse` (source type and filename elided). -/
structure PreviewResponse where
  total_rows : Nat
  parsed_rows : Nat
  valid_rows : Nat
  duplicate_rows : Nat
  invalid_rows : Nat
  warnings : List String
  rows : List Row
deriving DecidableEq

/-- `preview_statement_import`.  The stages before duplicate annotation
(empty/size check, extension dispatch, `_decode_bytes`, `_parse_csv_rows` /
`_parse_pdf_rows`) perform no ledger access in the source; they are presented
here as the already-computed `source` outcome (rows and warnings, or the
rejection they raised).  The ledger is threaded explicitly: the second
component of the result is the ledger state after the request. -/
def preview_statement_import (ledger : List Transaction) (accounts : List Account)
    (user_id account_id : Nat) (source : Except String (List Row × List String)) :
    Except String PreviewResponse × List Transaction :=
  match _load_account_or_404 accounts user_id account_id with
  | none => (.error "Account not found", ledger)
  | some account =>
    match source with
    | .error e => (.error e, ledger)
    | .ok (rows0, warnings) =>
      let rows := _annotate_duplicate_rows ledger user_id account.id rows0 true
      (.ok { total_rows := rows.length
             parsed_rows := (rows.filter (fun r => r.error = none)).length
             valid_rows := (rows.filter (fun r => r.error = none && r.is_duplicate = false)).length
             duplicate_rows := (rows.filter (fun r => r.is_duplicate)).length
             invalid_rows := (rows.filter (fun r => r.error ≠ none)).length
             warnings := warnings
             rows := rows },
       ledger)

/-- One iteration of the `for row in rows` commit loop (lines 564–599):
state is `(skipped_invalid, skipped_duplicates, created)`. -/
def commit_row_step (account_currency : String) (user_id account_id : Nat)
    (st : Nat × Nat × List Transaction) (row : Row) : Nat × Nat × List Transaction :=
  let skipped_invalid := st.1
  let skipped_duplicates := st.2.1
  let created := st.2.2
  if row.selected = false then st
  else if row.error ≠ none then (skipped_invalid + 1, skipped_duplicates, created)
  else if row.is_duplicate then (skipped_invalid, skipped_duplicates + 1, created)
  else
    let description := _normalize_space row.description
    let currency := _parse_currency_value (some row.currency) account_currency
    let note := strOrNone (_normalize_space (row.note.getD ""))
    let external_id := strOrNone (_normalize_space (row.external_id.getD ""))
    if description = "" ∨ row.amount = none ∨ (row.amount.map Dec.isZero).getD false ∨
        row.occurred_at = none ∨ currency.length ≠ 3 then
      (skipped_invalid + 1, skipped_duplicates, created)
    else
      (skipped_invalid, skipped_duplicates,
       created ++ [{ id := 0
                     user_id := user_id
                     account_id := account_id
                     category_id := row.category_id
                     external_id := external_id
                     description := description
                     note := note
                     currency := currency
                     amount := row.amount.getD ⟨0, 0⟩
                     occurred_at := row.occurred_at.getD ⟨1, 1, 1, 0, 0, 0⟩
                     is_manual := true }])

/-- The commit loop over all submitted rows. -/
def commit_rows (account_currency : String) (user_id account_id : Nat) (rows : List Row) :
    Nat × Nat × List Transaction :=
  rows.foldl (commit_row_step account_currency user_id account_id) (0, 0, [])

/-- The rows accepted by a commit request (the `created` list). -/
def acceptedRows (ledger : List Transaction) (account : Account) (user_id : Nat)
    (rows : List Row) : List Transaction :=
  (commit_rows account.currency user_id account.id
    (_annotate_duplicate_rows ledger user_id account.id rows false)).2.2

/-- `TransactionImportCommitResponse` (`transaction_ids` elided: ids are
database-assigned and not modelled). -/
structure CommitResponse where
  imported_count : Nat
  skipped_duplicates : Nat
  skipped_invalid : Nat
deriving DecidableEq

/-- `commit_statement_import`: account lookup, empty-payload rejection,
re-annotation with `mutate_selection=False`, the commit loop, then
`db.commit()` when anything was created and `db.rollback()` otherwise.
The second component of the result is the ledger state after the request. -/
def commit_statement_import (ledger : List Transaction) (accounts : List Account)
    (user_id account_id : Nat) (rows : List Row) :
    Except String CommitResponse × List Transaction :=
  match _load_account_or_404 accounts user_id account_id with
  | none => (.error "Account not found", ledger)
  | some account =>
    if rows = [] then (.error "No rows provided", ledger)
    else
      let annotated := _annotate_duplicate_rows ledger user_id account.id rows false
      let result := commit_rows account.currency user_id account.id annotated
      let created := result.2.2
      (.ok { imported_count := created.length
             skipped_duplicates := result.2.1
             skipped_invalid := result.1 },
       if created = [] then ledger else ledger ++ created)

/-! ### Claim-side renderings used for comparison -/

/-- Currency normalization exactly as claim C6 words it: a non-blank cell is
always normalized from the cell itself — symbol mapping, otherwise strip
non-letters, uppercase and take the first 3 characters (however few remain);
only a blank or missing cell falls back to the account currency.  To be
compared against `_parse_currency_value`. -/
def parse_currency_value_claimC6 (raw : Option String) (default_currency : String) : String :=
  match raw with
  | none => default_currency
  | some r =>
    let value := String.mk (pyStrip r.data)
    if value = "" then default_currency
    else
      match CURRENCY_SYMBOLS.lookup value with
      | some code => code
      | none => String.mk ((lettersUpper value).take 3)

/-- The minimum-completeness re-validation of claim C3: non-blank
description, non-null non-zero amount, non-null date, 3-letter currency
(after normalization against the account currency). -/
def commit_min_complete (account_currency : String) (row : Row) : Bool :=
  _normalize_space row.description ≠ "" &&
  row.amount.isSome && !(row.amount.map Dec.isZero).getD false &&
  row.occurred_at.isSome &&
  (_parse_currency_value (some row.currency) account_currency).length = 3

/-! ### Concrete fixtures used by witnesses -/

/-- A fully valid candidate row (CSV line 2: `Rent`, −500.00 EUR,
2026-02-02). -/
def rentRow : Row :=
  { _base_row 2 with
      description := "Rent"
      amount := some ⟨-50000, 2⟩
      occurred_at := some ⟨2026, 2, 2, 0, 0, 0⟩
      currency := "EUR" }

/-- A row whose description is a single space: truthy for the annotation
loop, but normalizing to the empty string inside the fingerprint. -/
def blankPadRow : Row :=
  { _base_row 1 with
      description := " "
      amount := some ⟨-5, 0⟩
      occurred_at := some ⟨2026, 2, 1, 0, 0, 0⟩ }

/-- A row with an empty description but a date and an amount: structurally
valid in claim C2's sense, not in the code's. -/
def emptyDescRow : Row :=
  { _base_row 2 with
      description := ""
      amount := some ⟨-5, 0⟩
      occurred_at := some ⟨2026, 2, 1, 0, 0, 0⟩ }

/-- A ledger transaction carrying external id `tx-9`. -/
def coffeeTxn : Transaction :=
  { id := 7
    user_id := 1
    account_id := 1
    category_id := none
    external_id := some "tx-9"
    description := "Other thing"
    note := none
    currency := "EUR"
    amount := ⟨-111, 2⟩
    occurred_at := ⟨2025, 1, 1, 0, 0, 0⟩
    is_manual := true }

/-- A candidate row reusing external id `tx-9` with a fingerprint matching
no existing transaction. -/
def extIdRow : Row :=
  { _base_row 1 with
      description := "New thing"
      amount := some ⟨-5, 0⟩
      occurred_at := some ⟨2026, 3, 1, 0, 0, 0⟩
      external_id := some "tx-9" }

/-! ## Theorems for the claims -/

/-- C1: of the seven representative amount strings, six parse to the claimed
values, but `"3.50-"` does not parse at all: the cleaning step keeps the
trailing minus sign, so the final `float(...)` conversion raises and the
function returns `None` — even though the `value.endswith("-")` branch set
`negative = True` in preparation for exactly this input. -/
theorem c1_amount_parsing_values :
    (_parse_amount_value "-3.50").map Dec.toRat = some (-3.50) ∧
    _parse_amount_value "3.50-" = none ∧
    (_parse_amount_value "(3.50)").map Dec.toRat = some (-3.50) ∧
    (_parse_amount_value "1.234,56").map Dec.toRat = some 1234.56 ∧
    (_parse_amount_value "1,234.56").map Dec.toRat = some 1234.56 ∧
    (_parse_amount_value "1.234.567").map Dec.toRat = some 1234567 ∧
    (_parse_amount_value "1,5").map Dec.toRat = some 1.5 := by
  refine ⟨?_, by decide, ?_, ?_, ?_, ?_, ?_⟩
  · rw [show _parse_amount_value "-3.50" = some ⟨-350, 2⟩ from by decide]
    simp [Dec.toRat]; norm_num
  · rw [show _parse_amount_value "(3.50)" = some ⟨-350, 2⟩ from by decide]
    simp [Dec.toRat]; norm_num
  · rw [show _parse_amount_value "1.234,56" = some ⟨123456, 2⟩ from by decide]
    simp [Dec.toRat]; norm_num
  · rw [show _parse_amount_value "1,234.56" = some ⟨123456, 2⟩ from by decide]
    simp [Dec.toRat]; norm_num
  · rw [show _parse_amount_value "1.234.567" = some ⟨1234567, 0⟩ from by decide]
    simp [Dec.toRat]
  · rw [show _parse_amount_value "1,5" = some ⟨15, 1⟩ from by decide]
    simp [Dec.toRat]; norm_num

/-- C9: the preview operation leaves the transaction ledger unchanged — for
every account lookup outcome and every parse outcome it returns the input
ledger as the post-request ledger state. -/
theorem c9_preview_ledger_unchanged (ledger : List Transaction) (accounts : List Account)
    (user_id account_id : Nat) (source : Except String (List Row × List String)) :
    (preview_statement_import ledger accounts user_id account_id source).2 = ledger := by
  unfold preview_statement_import
  cases _load_account_or_404 accounts user_id account_id with
  | none => rfl
  | some account =>
    cases source with
    | error e => rfl
    | ok payload => rfl

/-- C10: byte decoding is total.  `latin-1` decodes every byte sequence, so
the decode chain always returns a string and the `DecodeError` branch of
`_decode_bytes` is unreachable. -/
theorem c10_decode_total (raw : List (Fin 256)) :
    latin1Decode raw ≠ none ∧ ∃ s, _decode_bytes raw = Except.ok s := by
  refine ⟨by simp [latin1Decode], ?_⟩
  unfold _decode_bytes
  cases utf8SigDecode raw with
  | some cs => exact ⟨String.mk cs, rfl⟩
  | none =>
    cases utf8Decode raw with
    | some cs => exact ⟨String.mk cs, rfl⟩
    | none => exact ⟨String.mk (raw.map (fun b => Char.ofNat b.val)), by simp [latin1Decode]⟩

/-- The minimum-completeness predicate is the negation of the skip condition
on line 582 of `imports.py`. -/
theorem commit_min_complete_spec (cur : String) (row : Row) :
    commit_min_complete cur row = true ↔
      ¬(_normalize_space row.description = "" ∨ row.amount = none ∨
        (row.amount.map Dec.isZero).getD false = true ∨ row.occurred_at = none ∨
        (_parse_currency_value (some row.currency) cur).length ≠ 3) := by
  simp [commit_min_complete, Option.isSome_iff_ne_none]
  tauto

/-- C3: the commit gates fire in the fixed order.  An unselected row changes
nothing; then an erroneous row counts as invalid; then a duplicate-flagged
row counts as duplicate; then a row failing the minimum-completeness
re-validation counts as invalid; only a row passing every gate is turned
into a ledger transaction (appended to `created`, owned by the requesting
user and target account, `is_manual = true`). -/
theorem c3_commit_gating_order (account_currency : String) (user_id account_id : Nat)
    (skipped_invalid skipped_duplicates : Nat) (created : List Transaction) (row : Row) :
    (row.selected = false →
      commit_row_step account_currency user_id account_id
          (skipped_invalid, skipped_duplicates, created) row
        = (skipped_invalid, skipped_duplicates, created)) ∧
    (row.selected = true → row.error ≠ none →
      commit_row_step account_currency user_id account_id
          (skipped_invalid, skipped_duplicates, created) row
        = (skipped_invalid + 1, skipped_duplicates, created)) ∧
    (row.selected = true → row.error = none → row.is_duplicate = true →
      commit_row_step account_currency user_id account_id
          (skipped_invalid, skipped_duplicates, created) row
        = (skipped_invalid, skipped_duplicates + 1, created)) ∧
    (row.selected = true → row.error = none → row.is_duplicate = false →
      commit_min_complete account_currency row = false →
      commit_row_step account_currency user_id account_id
          (skipped_invalid, skipped_duplicates, created) row
        = (skipped_invalid + 1, skipped_duplicates, created)) ∧
    (row.selected = true → row.error = none → row.is_duplicate = false →
      commit_min_complete account_currency row = true →
      ∃ t, commit_row_step account_currency user_id account_id
            (skipped_invalid, skipped_duplicates, created) row
          = (skipped_invalid, skipped_duplicates, created ++ [t]) ∧
          t.user_id = user_id ∧ t.account_id = account_id ∧ t.is_manual = true ∧
          t.category_id = row.category_id ∧ t.amount = row.amount.getD ⟨0, 0⟩ ∧
          t.occurred_at = row.occurred_at.getD ⟨1, 1, 1, 0, 0, 0⟩) := by
  refine ⟨?_, ?_, ?_, ?_, ?_⟩
  · intro hsel
    simp [commit_row_step, hsel]
  · intro hsel herr
    simp [commit_row_step, hsel, herr]
  · intro hsel herr hdup
    simp [commit_row_step, hsel, herr, hdup]
  · intro hsel herr hdup hmin
    have hC : _normalize_space row.description = "" ∨ row.amount = none ∨
        (row.amount.map Dec.isZero).getD false = true ∨ row.occurred_at = none ∨
        (_parse_currency_value (some row.currency) account_currency).length ≠ 3 := by
      by_contra h
      have := (commit_min_complete_spec account_currency row).2 h
      rw [hmin] at this
      exact Bool.false_ne_true this
    rcases hC with h | h | h | h | h <;>
      simp [commit_row_step, hsel, herr, hdup, h]
  · intro hsel herr hdup hmin
    have hC := (commit_min_complete_spec account_currency row).1 hmin
    refine ⟨{ id := 0, user_id := user_id, account_id := account_id,
              category_id := row.category_id,
              external_id := strOrNone (_normalize_space (row.external_id.getD "")),
              description := _normalize_space row.description,
              note := strOrNone (_normalize_space (row.note.getD "")),
              currency := _parse_currency_value (some row.currency) account_currency,
              amount := row.amount.getD ⟨0, 0⟩,
              occurred_at := row.occurred_at.getD ⟨1, 1, 1, 0, 0, 0⟩,
              is_manual := true }, ?_, rfl, rfl, rfl, rfl, rfl, rfl⟩
    simp only [commit_row_step, hsel, herr, hdup]
    simp only [Bool.true_eq_false, if_false, ne_eq, not_true_eq_false]
    rw [if_neg (by simp)]
    rw [if_neg hC]

/-- Witness for C3: a concrete selected, error-free, non-duplicate,
minimally complete row is accepted and becomes a transaction. -/
theorem c3_commit_gating_order_witness :
    ∃ t, commit_row_step "EUR" 1 1 (0, 0, []) rentRow = (0, 0, [] ++ [t]) ∧
        t.user_id = 1 ∧ t.account_id = 1 ∧ t.is_manual = true ∧
        t.category_id = rentRow.category_id ∧ t.amount = rentRow.amount.getD ⟨0, 0⟩ ∧
        t.occurred_at = rentRow.occurred_at.getD ⟨1, 1, 1, 0, 0, 0⟩ :=
  (c3_commit_gating_order "EUR" 1 1 0 0 [] rentRow).2.2.2.2 rfl rfl rfl (by decide)

/-- C4: the commit operation is atomic over its accepted set.  When the
account resolves and the payload is non-empty: if no row is accepted the
ledger is returned unchanged (`db.rollback()`), and if any row is accepted
the ledger is extended by exactly the accepted rows in one step
(`db.commit()`).  A failed account lookup or an empty payload also leaves
the ledger unchanged. -/
theorem c4_commit_all_or_nothing (ledger : List Transaction) (accounts : List Account)
    (user_id account_id : Nat) (rows : List Row) :
    (∀ account, _load_account_or_404 accounts user_id account_id = some account → rows ≠ [] →
      (acceptedRows ledger account user_id rows = [] →
        (commit_statement_import ledger accounts user_id account_id rows).2 = ledger) ∧
      (acceptedRows ledger account user_id rows ≠ [] →
        (commit_statement_import ledger accounts user_id account_id rows).2 =
          ledger ++ acceptedRows ledger account user_id rows)) ∧
    (_load_account_or_404 accounts user_id account_id = none →
      (commit_statement_import ledger accounts user_id account_id rows).2 = ledger) ∧
    (rows = [] →
      (commit_statement_import ledger accounts user_id account_id rows).2 = ledger) := by
  refine ⟨?_, ?_, ?_⟩
  · intro account hacct hrows
    constructor
    · intro hemp
      simp only [commit_statement_import, hacct]
      rw [if_neg hrows]
      simp only [acceptedRows] at hemp
      simp [hemp]
    · intro hne
      simp only [commit_statement_import, hacct]
      rw [if_neg hrows]
      simp only [acceptedRows] at hne
      simp only [acceptedRows]
      simp [hne]
  · intro hnone
    simp [commit_statement_import, hnone]
  · intro hrows
    subst hrows
    cases h : _load_account_or_404 accounts user_id account_id <;>
      simp [commit_statement_import, h]

/-- Witness for C4: committing one concrete accepted row appends exactly the
accepted set to an empty ledger. -/
theorem c4_commit_all_or_nothing_witness :
    (commit_statement_import [] [⟨1, 1, "EUR"⟩] 1 1 [rentRow]).2 =
      [] ++ acceptedRows [] ⟨1, 1, "EUR"⟩ 1 [rentRow] :=
  ((c4_commit_all_or_nothing [] [⟨1, 1, "EUR"⟩] 1 1 [rentRow]).1
    ⟨1, 1, "EUR"⟩ (by decide) (by decide)).2 (by decide)

/-- Counterexample to C6 as stated: for the non-blank currency cell `"z9"`
(account currency `EUR`), the claim's normalization yields `"Z"` — not a
3-letter code, so the claim predicts an error row — but the code falls back
to the account currency `"EUR"` and produces no error at all. -/
theorem c6_currency_counterexample :
    parse_currency_value_claimC6 (some "z9") "EUR" = "Z" ∧
    ("Z" : String).length ≠ 3 ∧
    _parse_currency_value (some "z9") "EUR" = "EUR" ∧
    (_parse_csv_row "EUR" 2
        ⟨some "Coffee", none, some "2026-02-01", true, some "-3.50", none, none, some "z9", none⟩).currency
      = "EUR" ∧
    (_parse_csv_row "EUR" 2
        ⟨some "Coffee", none, some "2026-02-01", true, some "-3.50", none, none, some "z9", none⟩).error
      = none := by
  decide

/-- C6 (amended): a missing or blank currency cell falls back to the account
currency; a stripped cell equal to a known symbol maps to its code; a
non-blank cell with at least 3 letters left after stripping non-letters
normalizes to the first 3 uppercase letters; a non-blank cell with fewer
than 3 letters also falls back to the account currency; and whenever the
resulting currency is not exactly 3 characters the row is an error row. -/
theorem c6_currency_normalization (default_currency : String) :
    _parse_currency_value none default_currency = default_currency ∧
    (∀ s, pyStrip s.data = [] →
      _parse_currency_value (some s) default_currency = default_currency) ∧
    (∀ s code, String.mk (pyStrip s.data) ≠ "" →
      CURRENCY_SYMBOLS.lookup (String.mk (pyStrip s.data)) = some code →
      _parse_currency_value (some s) default_currency = code) ∧
    (∀ s, String.mk (pyStrip s.data) ≠ "" →
      CURRENCY_SYMBOLS.lookup (String.mk (pyStrip s.data)) = none →
      3 ≤ (lettersUpper (String.mk (pyStrip s.data))).length →
      _parse_currency_value (some s) default_currency =
        String.mk ((lettersUpper (String.mk (pyStrip s.data))).take 3)) ∧
    (∀ s, String.mk (pyStrip s.data) ≠ "" →
      CURRENCY_SYMBOLS.lookup (String.mk (pyStrip s.data)) = none →
      (lettersUpper (String.mk (pyStrip s.data))).length < 3 →
      _parse_currency_value (some s) default_currency = default_currency) ∧
    (∀ cells line_number,
      ((_parse_csv_row default_currency line_number cells).currency).length ≠ 3 →
      (_parse_csv_row default_currency line_number cells).error ≠ none) := by
  refine ⟨rfl, ?_, ?_, ?_, ?_, ?_⟩
  · intro s h
    simp [_parse_currency_value, h]
  · intro s code hne hsym
    simp [_parse_currency_value, hne, hsym]
  · intro s hne hsym hlen
    rw [_parse_currency_value]
    rw [if_neg hne, hsym]
    simp only []
    rw [if_pos hlen]
  · intro s hne hsym hlen
    rw [_parse_currency_value]
    rw [if_neg hne, hsym]
    simp only []
    rw [if_neg (by omega)]
  · intro cells line_number h
    have hcur : (_parse_csv_row default_currency line_number cells).currency =
        _parse_currency_value cells.currency default_currency := rfl
    rw [hcur] at h
    simp only [_parse_csv_row]
    rw [if_pos h]
    simp

/-- Witness for C6 (amended): the symbol cell `" € "` with account currency
`XXX` normalizes to `EUR`. -/
theorem c6_currency_normalization_witness :
    _parse_currency_value (some " € ") "XXX" = "EUR" :=
  (c6_currency_normalization "XXX").2.2.1 " € " "EUR" (by decide) (by decide)

/-- The rule ordering `ORDER BY priority ASC, id ASC`, propositionally. -/
theorem ruleLe_iff (r1 r2 : CategoryRule) :
    ruleLe r1 r2 = true ↔
      (r1.priority < r2.priority ∨ (r1.priority = r2.priority ∧ r1.id ≤ r2.id)) := by
  simp [ruleLe]

/-- The rule ordering is total. -/
theorem ruleLe_total (r1 r2 : CategoryRule) : ruleLe r1 r2 = true ∨ ruleLe r2 r1 = true := by
  rw [ruleLe_iff, ruleLe_iff]
  omega

/-- The rule ordering is transitive. -/
theorem ruleLe_trans (r1 r2 r3 : CategoryRule) (h1 : ruleLe r1 r2 = true)
    (h2 : ruleLe r2 r3 = true) : ruleLe r1 r3 = true := by
  rw [ruleLe_iff] at h1 h2 ⊢
  omega

/-- The inner text loop returns the rule's category exactly when some
candidate text matches. -/
theorem matchTexts_eq (regexSearch : String → String → Bool → Bool) (rule : CategoryRule)
    (texts : List String) :
    matchTexts regexSearch rule texts =
      (if texts.any (_rule_matches_text regexSearch rule) then some rule.category_id else none) := by
  induction texts with
  | nil => simp [matchTexts]
  | cons t ts ih =>
    by_cases h : _rule_matches_text regexSearch rule t = true
    · simp [matchTexts, h]
    · simp only [Bool.not_eq_true] at h
      simp [matchTexts, h, ih]

/-- The outer rule loop is first-match-wins: it agrees with `List.find?`
over the structural-match predicate. -/
theorem scanRules_eq (regexSearch : String → String → Bool → Bool) (txn_kind : String)
    (texts : List String) (rs : List CategoryRule) :
    scanRules regexSearch txn_kind texts rs =
      (rs.find? (rule_struct_matches regexSearch txn_kind texts)).map (fun r => r.category_id) := by
  induction rs with
  | nil => simp [scanRules]
  | cons r rest ih =>
    by_cases hkind : r.applies_to_kind ≠ "all" ∧ r.applies_to_kind ≠ txn_kind
    · have hpred : rule_struct_matches regexSearch txn_kind texts r = false := by
        simp only [rule_struct_matches, Bool.and_eq_false_iff]
        left
        simp only [Bool.or_eq_false_iff]
        constructor <;> simp [hkind.1, hkind.2]
      simp [scanRules, hkind, List.find?_cons, hpred, ih]
    · have hkind' : (r.applies_to_kind = "all" || r.applies_to_kind = txn_kind) = true := by
        rcases not_and_or.mp hkind with h | h
        · simp only [ne_eq, not_not] at h
          simp [h]
        · simp only [ne_eq, not_not] at h
          simp [h]
      rw [scanRules]
      rw [if_neg hkind]
      rw [matchTexts_eq]
      by_cases hany : texts.any (_rule_matches_text regexSearch r) = true
      · have hpred : rule_struct_matches regexSearch txn_kind texts r = true := by
          simp [rule_struct_matches, hkind', hany]
        simp [hany, List.find?_cons, hpred]
      · simp only [Bool.not_eq_true] at hany
        have hpred : rule_struct_matches regexSearch txn_kind texts r = false := by
          simp [rule_struct_matches, hany]
        simp [hany, List.find?_cons, hpred, ih]

/-- C5: for every rule set and input, the matcher scans the user's active
rules sorted by ascending priority with ties broken by ascending id (the
snapshot is sorted for that ordering and is a permutation of the user's
active rules), returns the `category_id` of the first structurally matching
rule (`List.find?` semantics), and returns `none` — not an error — when no
rule matches. -/
theorem c5_rule_matcher (regexSearch : String → String → Bool → Bool)
    (rules : List CategoryRule) (user_id : Nat) (description : String) (note : Option String)
    (amount : Dec) :
    find_matching_category_id regexSearch rules user_id description note amount =
      ((sortedActiveRules rules user_id).find?
        (rule_struct_matches regexSearch (transaction_kind_from_amount amount)
          (_candidate_texts description note))).map (fun r => r.category_id) ∧
    List.Pairwise (fun r1 r2 => ruleLe r1 r2 = true) (sortedActiveRules rules user_id) ∧
    (sortedActiveRules rules user_id).Perm
      (rules.filter (fun r => r.user_id = user_id && r.is_active)) ∧
    ((∀ r ∈ sortedActiveRules rules user_id,
        rule_struct_matches regexSearch (transaction_kind_from_amount amount)
          (_candidate_texts description note) r = false) →
      find_matching_category_id regexSearch rules user_id description note amount = none) := by
  have hmain : find_matching_category_id regexSearch rules user_id description note amount =
      ((sortedActiveRules rules user_id).find?
        (rule_struct_matches regexSearch (transaction_kind_from_amount amount)
          (_candidate_texts description note))).map (fun r => r.category_id) := by
    rw [find_matching_category_id]
    by_cases htex : _candidate_texts description note = []
    · rw [if_pos htex]
      have hnone : (sortedActiveRules rules user_id).find?
          (rule_struct_matches regexSearch (transaction_kind_from_amount amount)
            (_candidate_texts description note)) = none := by
        rw [List.find?_eq_none]
        intro r _
        simp [rule_struct_matches, htex]
      rw [hnone, Option.map_none']
    · rw [if_neg htex, scanRules_eq]
  refine ⟨hmain, ?_, ?_, ?_⟩
  · haveI : IsTotal CategoryRule (fun r1 r2 => ruleLe r1 r2 = true) := ⟨ruleLe_total⟩
    haveI : IsTrans CategoryRule (fun r1 r2 => ruleLe r1 r2 = true) := ⟨ruleLe_trans⟩
    exact List.sorted_insertionSort _ _
  · exact List.perm_insertionSort _ _
  · intro hall
    rw [hmain]
    rw [List.find?_eq_none.mpr (fun r hr => by simp [hall r hr])]
    rfl

/-- Witness for C5: with one active rule that does not match a blank
description, the matcher returns `none`. -/
theorem c5_rule_matcher_witness :
    find_matching_category_id (fun _ _ _ => false)
      [⟨1, 1, 10, "LIDL", "contains", "all", 1, false, true⟩] 1 "" none ⟨-1, 0⟩ = none :=
  (c5_rule_matcher (fun _ _ _ => false)
    [⟨1, 1, 10, "LIDL", "contains", "all", 1, false, true⟩] 1 "" none ⟨-1, 0⟩).2.2.2
    (by decide)

/-- C8: in the page-text path, a normalized line lacking a date match or an
amount-like match produces no candidate row at all (`none`, silently
skipped); an emitted row never carries an error; and when a row is emitted
its amount is the parse of the last amount-like match on the line.  At the
list level a skipped line contributes nothing to the rows list. -/
theorem c8_pdf_line_skips (dateSearch : String → Option String)
    (amountFindall : String → List String) (default_currency : String) (n : Nat) (line : String) :
    ((dateSearch line = none ∨ amountFindall line = []) →
      _parse_pdf_line dateSearch amountFindall default_currency n line = none) ∧
    (∀ r, _parse_pdf_line dateSearch amountFindall default_currency n line = some r →
      r.error = none ∧
      ∃ t, (amountFindall line).getLast? = some t ∧
        ∃ d, _parse_amount_value t = some d ∧ d.isZero = false ∧ r.amount = some d) ∧
    (∀ pre post, (dateSearch line = none ∨ amountFindall line = []) →
      _parse_pdf_rows dateSearch amountFindall default_currency (pre ++ (n, line) :: post) =
        _parse_pdf_rows dateSearch amountFindall default_currency pre ++
          _parse_pdf_rows dateSearch amountFindall default_currency post) := by
  have hskip : (dateSearch line = none ∨ amountFindall line = []) →
      _parse_pdf_line dateSearch amountFindall default_currency n line = none := by
    rintro (h | h)
    · simp [_parse_pdf_line, h]
    · simp [_parse_pdf_line, h]
  refine ⟨hskip, ?_, ?_⟩
  · intro r h
    cases hd : dateSearch line with
    | none => rw [_parse_pdf_line, hd] at h; simp at h
    | some dt =>
      cases hl : (amountFindall line).getLast? with
      | none => rw [_parse_pdf_line, hd, hl] at h; simp at h
      | some at_ =>
        cases hpd : _parse_date_value (some dt) with
        | none => rw [_parse_pdf_line, hd, hl] at h; simp [hpd] at h
        | some od =>
          cases hpa : _parse_amount_value at_ with
          | none => rw [_parse_pdf_line, hd, hl] at h; simp [hpd, hpa] at h
          | some am =>
            by_cases hz : am.isZero = true
            · rw [_parse_pdf_line, hd, hl] at h
              simp [hpd, hpa, hz] at h
            · simp only [Bool.not_eq_true] at hz
              rw [_parse_pdf_line, hd, hl] at h
              simp only [hpd, hpa, hz, Bool.false_eq_true, if_false, Option.some.injEq] at h
              subst h
              exact ⟨rfl, at_, rfl, am, hpa, hz, rfl⟩
  · intro pre post h
    have hnone := hskip h
    simp [_parse_pdf_rows, List.filterMap_append, List.filterMap_cons, hnone]

/-- Witness for C8: a line with no date match is skipped, on concrete
matcher behaviour. -/
theorem c8_pdf_line_skips_witness :
    _parse_pdf_line (fun _ => none) (fun _ => ["12.30"]) "EUR" 1 "no date here" = none :=
  (c8_pdf_line_skips (fun _ => none) (fun _ => ["12.30"]) "EUR" 1 "no date here").1
    (Or.inl rfl)

/-- An `if`-expression with a `none` positive branch can only differ from
`none` when the condition fails. -/
theorem ite_none_ne_none {p : Prop} [Decidable p] {s : String}
    (h : (if p then (none : Option String) else some s) ≠ none) : ¬p := by
  intro hp
  rw [if_pos hp] at h
  exact h rfl

/-- One preview-mode annotation step preserves the candidate-row invariant
for an input row that is not pre-flagged. -/
theorem annotateRowStep_inv (account_id : Nat) (eE eF sE sF : List String) (r : Row)
    (hdup : r.is_duplicate = false) :
    ¬((annotateRowStep true account_id eE eF sE sF r).1.error ≠ none ∧
        (annotateRowStep true account_id eE eF sE sF r).1.is_duplicate = true) ∧
    ((annotateRowStep true account_id eE eF sE sF r).1.error ≠ none →
      (annotateRowStep true account_id eE eF sE sF r).1.selected = false) := by
  rw [annotateRowStep]
  split_ifs <;> simp_all
  all_goals (split_ifs <;> simp_all)

/-- The preview-mode annotation loop establishes the candidate-row
invariant on every output row, given unflagged inputs. -/
theorem annotateGo_inv (account_id : Nat) (eE eF : List String) :
    ∀ (rows : List Row) (sE sF : List String),
      (∀ r ∈ rows, r.is_duplicate = false ∧ (r.error ≠ none → r.selected = false)) →
      ∀ r' ∈ annotateGo true account_id eE eF sE sF rows,
        ¬(r'.error ≠ none ∧ r'.is_duplicate = true) ∧ (r'.error ≠ none → r'.selected = false) := by
  intro rows
  induction rows with
  | nil => intro sE sF _ r' hr'; simp [annotateGo] at hr'
  | cons r rest ih =>
    intro sE sF hprop r' hr'
    rw [annotateGo] at hr'
    rcases List.mem_cons.mp hr' with h | h
    · subst h
      exact annotateRowStep_inv account_id eE eF sE sF r (hprop r (by simp)).1
    · exact ih _ _ (fun x hx => hprop x (by simp [hx])) r' h

/-- `_annotate_duplicate_rows` with `mutate_selection=True` establishes the
candidate-row invariant, given inputs that are unflagged and have
`selected` already cleared on error (as both parsers produce). -/
theorem annotate_inv (ledger : List Transaction) (user_id account_id : Nat) (rows : List Row)
    (hprop : ∀ r ∈ rows, r.is_duplicate = false ∧ (r.error ≠ none → r.selected = false)) :
    ∀ r' ∈ _annotate_duplicate_rows ledger user_id account_id rows true,
      ¬(r'.error ≠ none ∧ r'.is_duplicate = true) ∧ (r'.error ≠ none → r'.selected = false) := by
  intro r' hr'
  rw [_annotate_duplicate_rows] at hr'
  split_ifs at hr' with h
  · exact ⟨fun hc => by simp [(hprop r' hr').1] at hc, (hprop r' hr').2⟩
  · exact annotateGo_inv account_id _ _ rows [] [] hprop r' hr'

/-- Every row built by the CSV per-row parser starts unflagged, and has
`selected` cleared whenever an error was recorded. -/
theorem parse_csv_row_base (default_currency : String) (line_number : Nat) (cells : CsvRowCells) :
    (_parse_csv_row default_currency line_number cells).is_duplicate = false ∧
    ((_parse_csv_row default_currency line_number cells).error ≠ none →
      (_parse_csv_row default_currency line_number cells).selected = false) := by
  refine ⟨rfl, ?_⟩
  intro h
  simp only [_parse_csv_row] at h ⊢
  exact decide_eq_false (ite_none_ne_none h)

/-- Every row emitted by the PDF line parser is error-free, unflagged and
selected. -/
theorem parse_pdf_line_base (dateSearch : String → Option String)
    (amountFindall : String → List String) (default_currency : String) (n : Nat) (line : String)
    (r : Row) (h : _parse_pdf_line dateSearch amountFindall default_currency n line = some r) :
    r.error = none ∧ r.is_duplicate = false ∧ r.selected = true := by
  cases hd : dateSearch line with
  | none => rw [_parse_pdf_line, hd] at h; simp at h
  | some dt =>
    cases hl : (amountFindall line).getLast? with
    | none => rw [_parse_pdf_line, hd, hl] at h; simp at h
    | some at_ =>
      cases hpd : _parse_date_value (some dt) with
      | none => rw [_parse_pdf_line, hd, hl] at h; simp [hpd] at h
      | some od =>
        cases hpa : _parse_amount_value at_ with
        | none => rw [_parse_pdf_line, hd, hl] at h; simp [hpd, hpa] at h
        | some am =>
          by_cases hz : am.isZero = true
          · rw [_parse_pdf_line, hd, hl] at h
            simp [hpd, hpa, hz] at h
          · simp only [Bool.not_eq_true] at hz
            rw [_parse_pdf_line, hd, hl] at h
            simp only [hpd, hpa, hz, Bool.false_eq_true, if_false, Option.some.injEq] at h
            subst h
            exact ⟨rfl, rfl, rfl⟩

/-- C7: every row of a preview response (CSV path or PDF path, after
duplicate annotation with selection mutation) satisfies the candidate-row
invariant: `error` and `is_duplicate` are never both set, and a row with an
error always has `selected = false`. -/
theorem c7_preview_row_invariant (ledger : List Transaction) (user_id account_id : Nat)
    (default_currency : String) (cellRows : List CsvRowCells)
    (dateSearch : String → Option String) (amountFindall : String → List String)
    (lines : List (Nat × String)) :
    (∀ r ∈ _annotate_duplicate_rows ledger user_id account_id
        (_parse_csv_rows default_currency cellRows) true,
      ¬(r.error ≠ none ∧ r.is_duplicate = true) ∧ (r.error ≠ none → r.selected = false)) ∧
    (∀ r ∈ _annotate_duplicate_rows ledger user_id account_id
        (_parse_pdf_rows dateSearch amountFindall default_currency lines) true,
      ¬(r.error ≠ none ∧ r.is_duplicate = true) ∧ (r.error ≠ none → r.selected = false)) := by
  constructor
  · apply annotate_inv
    intro r hr
    rw [_parse_csv_rows] at hr
    obtain ⟨p, _, hp⟩ := List.mem_map.mp hr
    rw [← hp]
    exact parse_csv_row_base default_currency (p.1 + 2) p.2
  · apply annotate_inv
    intro r hr
    rw [_parse_pdf_rows] at hr
    obtain ⟨p, _, hp⟩ := List.mem_filterMap.mp hr
    obtain ⟨he, hd, _⟩ := parse_pdf_line_base dateSearch amountFindall default_currency p.1 p.2 r hp
    exact ⟨hd, fun hc => absurd he hc⟩

/-- Witness for C7: the invariant holds for the first row of a concrete
single-row CSV preview. -/
theorem c7_preview_row_invariant_witness :
    ¬(((_annotate_duplicate_rows [] 1 1
          (_parse_csv_rows "EUR"
            [⟨some "Coffee", none, some "2026-02-01", true, some "-3.50", none, none, none, none⟩])
          true).getD 0 (_base_row 0)).error ≠ none ∧
      ((_annotate_duplicate_rows [] 1 1
          (_parse_csv_rows "EUR"
            [⟨some "Coffee", none, some "2026-02-01", true, some "-3.50", none, none, none, none⟩])
          true).getD 0 (_base_row 0)).is_duplicate = true) :=
  ((c7_preview_row_invariant [] 1 1 "EUR"
      [⟨some "Coffee", none, some "2026-02-01", true, some "-3.50", none, none, none, none⟩]
      (fun _ => none) (fun _ => []) []).1 _ (by decide)).1

/-- The seen-sets evolve exactly as the claim-side policy says: a valid,
unflagged row contributes its (truthy) external id and its fingerprint;
every other row contributes nothing. -/
theorem annotateRowStep_seen (ms : Bool) (a : Nat) (eE eF sE sF : List String) (r : Row) :
    (annotateRowStep ms a eE eF sE sF r).2.1 =
      (if amendedValid r && !(spec_dup_flag a eE eF sE sF r) && extTruthy r then
        extVal r :: sE else sE) ∧
    (annotateRowStep ms a eE eF sE sF r).2.2 =
      (if amendedValid r && !(spec_dup_flag a eE eF sE sF r) then
        rowFingerprint a r :: sF else sF) := by
  rw [annotateRowStep]
  split_ifs <;>
    simp_all [amendedValid, claimValid, spec_dup_flag, Option.isSome_iff_ne_none]
  all_goals exact ⟨by split_ifs <;> rfl, by split_ifs <;> rfl⟩

/-- Field content of the code-side validity notion. -/
theorem amendedValid_fields (r : Row) (hv : amendedValid r = true) :
    r.error = none ∧ r.occurred_at ≠ none ∧ r.amount ≠ none ∧ r.description ≠ "" := by
  simpa [amendedValid, claimValid, Option.isSome_iff_ne_none, and_assoc] using hv

/-- On a valid row, one annotation step sets the duplicate flag exactly
when the first-matching-check policy fires (a pre-set input flag is kept
when no check fires, since the loop never clears the flag). -/
theorem annotateRowStep_flag (ms : Bool) (a : Nat) (eE eF sE sF : List String) (r : Row)
    (hv : amendedValid r = true) :
    (annotateRowStep ms a eE eF sE sF r).1.is_duplicate =
      (spec_dup_flag a eE eF sE sF r || r.is_duplicate) := by
  obtain ⟨h1, h2, h3, h4⟩ := amendedValid_fields r hv
  rw [annotateRowStep, spec_dup_flag]
  rw [if_neg (by simp [h1])]
  rw [if_neg (by simp [h2, h3, h4])]
  split_ifs <;> simp_all

/-- Unfolding of the claim-side flags, with the seen-set updates expressed
uniformly. -/
theorem spec_dup_flags_cons (v : Row → Bool) (a : Nat) (eE eF sE sF : List String)
    (r : Row) (rs : List Row) :
    spec_dup_flags v a eE eF sE sF (r :: rs) =
      (if v r then spec_dup_flag a eE eF sE sF r else false) ::
        spec_dup_flags v a eE eF
          (if v r && !(spec_dup_flag a eE eF sE sF r) && extTruthy r then extVal r :: sE else sE)
          (if v r && !(spec_dup_flag a eE eF sE sF r) then rowFingerprint a r :: sF else sF)
          rs := by
  by_cases h : v r = true
  · simp [spec_dup_flags, h]
  · simp only [Bool.not_eq_true] at h
    simp [spec_dup_flags, h]

/-- The annotation loop agrees with the claim-side flags on every valid row,
for arbitrary seen-set accumulators. -/
theorem annotateGo_flags (ms : Bool) (a : Nat) (eE eF : List String) :
    ∀ (rows : List Row) (sE sF : List String) (i : Nat), i < rows.length →
      amendedValid (rows.getD i (_base_row 0)) = true →
      ((annotateGo ms a eE eF sE sF rows).getD i (_base_row 0)).is_duplicate =
        ((spec_dup_flags amendedValid a eE eF sE sF rows).getD i false
          || (rows.getD i (_base_row 0)).is_duplicate) := by
  intro rows
  induction rows with
  | nil => intro sE sF i hi _; simp at hi
  | cons r rs ih =>
    intro sE sF i hi hv
    simp only [annotateGo, spec_dup_flags_cons]
    cases i with
    | zero =>
      simp only [List.getD_cons_zero] at hv ⊢
      rw [annotateRowStep_flag ms a eE eF sE sF r hv]
      rw [if_pos hv]
    | succ j =>
      simp only [List.getD_cons_succ] at hv ⊢
      rw [(annotateRowStep_seen ms a eE eF sE sF r).1, (annotateRowStep_seen ms a eE eF sE sF r).2]
      exact ih _ _ j (Nat.lt_of_succ_lt_succ hi) hv

/-- External id beats fingerprint on the claim side: a valid row carrying a
non-empty external id present in the ledger set is always flagged, either by
check (a) or by check (b). -/
theorem spec_dup_flags_ext (a : Nat) (eE eF : List String) :
    ∀ (rows : List Row) (sE sF : List String) (i : Nat), i < rows.length →
      amendedValid (rows.getD i (_base_row 0)) = true →
      extTruthy (rows.getD i (_base_row 0)) = true →
      eE.contains (extVal (rows.getD i (_base_row 0))) = true →
      (spec_dup_flags amendedValid a eE eF sE sF rows).getD i false = true := by
  intro rows
  induction rows with
  | nil => intro sE sF i hi _ _ _; simp at hi
  | cons r rs ih =>
    intro sE sF i hi hv hext heE
    rw [spec_dup_flags_cons]
    cases i with
    | zero =>
      simp only [List.getD_cons_zero] at hv hext heE ⊢
      rw [if_pos hv, spec_dup_flag]
      split_ifs <;> simp_all
    | succ j =>
      simp only [List.getD_cons_succ] at hv hext heE ⊢
      exact ih _ _ j (Nat.lt_of_succ_lt_succ hi) hv hext heE

/-- C2 (amended): for every row that is structurally valid in the sense the
code applies — no error, amount, date, and additionally a non-empty
description — the duplicate flag produced by `_annotate_duplicate_rows` is
decided by the first matching check in the fixed order (a) external id seen
earlier in the batch among non-duplicate valid rows, (b) external id already
in the ledger for this user and account, (c) fingerprint seen earlier in the
batch, (d) fingerprint already in the ledger; external-id checks apply only
when the row carries a non-empty external id, and a row already flagged on
input stays flagged when no check fires (annotation never clears the flag).
In particular a valid row whose external id exists in the ledger is flagged
duplicate even when its fingerprint matches no existing transaction. -/
theorem c2_amended_duplicate_order (ledger : List Transaction) (user_id account_id : Nat)
    (ms : Bool) (rows : List Row) (i : Nat) (hi : i < rows.length)
    (hv : amendedValid (rows.getD i (_base_row 0)) = true) :
    ((_annotate_duplicate_rows ledger user_id account_id rows ms).getD i
        (_base_row 0)).is_duplicate
      = ((spec_dup_flags amendedValid account_id
            (existing_external_ids ledger user_id account_id rows)
            (existing_fingerprints ledger user_id account_id) [] [] rows).getD i false
          || (rows.getD i (_base_row 0)).is_duplicate) ∧
    (extTruthy (rows.getD i (_base_row 0)) = true →
      (existing_external_ids ledger user_id account_id rows).contains
          (extVal (rows.getD i (_base_row 0))) = true →
      ((_annotate_duplicate_rows ledger user_id account_id rows ms).getD i
          (_base_row 0)).is_duplicate = true) := by
  have hmem : rows.getD i (_base_row 0) ∈ rows := by
    rw [List.getD_eq_getElem?_getD, List.getElem?_eq_getElem hi]
    exact List.getElem_mem hi
  have hval : validRow (rows.getD i (_base_row 0)) = true := by
    obtain ⟨h1, h2, h3, _⟩ := amendedValid_fields _ hv
    simp only [validRow, Bool.and_eq_true, decide_eq_true_eq,
      Option.isSome_iff_ne_none]
    exact ⟨⟨h1, h2⟩, h3⟩
  have hfilter : rows.filter validRow ≠ [] := by
    intro hnil
    exact (List.filter_eq_nil_iff.mp hnil _ hmem) hval
  constructor
  · rw [_annotate_duplicate_rows, if_neg hfilter]
    exact annotateGo_flags ms account_id _ _ rows [] [] i hi hv
  · intro hext heE
    rw [_annotate_duplicate_rows, if_neg hfilter]
    rw [annotateGo_flags ms account_id _ _ rows [] [] i hi hv]
    rw [spec_dup_flags_ext account_id _ _ rows [] [] i hi hv hext heE]
    rfl

/-- Witness for C2 (amended): a concrete row whose external id `tx-9` exists
in the ledger is flagged duplicate although its fingerprint matches nothing. -/
theorem c2_amended_duplicate_order_witness :
    ((_annotate_duplicate_rows [coffeeTxn] 1 1 [extIdRow] false).getD 0
        (_base_row 0)).is_duplicate = true :=
  (c2_amended_duplicate_order [coffeeTxn] 1 1 false [extIdRow] 0 (by decide)
    (by decide)).2 (by decide) (by decide)

/-- Counterexample to C2 as stated: `emptyDescRow` is structurally valid in
the claim's sense (no error, amount, date) and its fingerprint equals that
of the earlier non-duplicate valid row `blankPadRow` (both descriptions
normalize to the empty string), so the claim's first-matching-check policy
flags it via check (c); the code instead marks it `Incomplete row data` and
leaves the duplicate flag false, because the checks additionally require a
non-empty description. -/
theorem c2_claim_counterexample :
    claimValid emptyDescRow = true ∧
    (spec_dup_flags claimValid 1 [] [] [] [] [blankPadRow, emptyDescRow]).getD 1 false = true ∧
    ((_annotate_duplicate_rows [] 1 1 [blankPadRow, emptyDescRow] false).getD 1
        (_base_row 0)).is_duplicate = false ∧
    ((_annotate_duplicate_rows [] 1 1 [blankPadRow, emptyDescRow] false).getD 1
        (_base_row 0)).error = some "Incomplete row data" := by
  decide

end ExpenseTracker
